import Mathlib

/-!
Verification development for the miniav state-estimation nodes.

The embedding covers the two estimation nodes of the repository:
`localization_py/state_estimation.py` (the three-mode estimation controller)
and `ekf_estimation/ekf_estimation.py` (the dedicated EKF node).  Sensor
callbacks and the fixed-rate publish tick are embedded as pure state
transformers on explicit node-state structures; a run is a fold of such
steps over a list of inbound events.  Machine floating point is modelled
by the reals; NaN is modelled by an explicit validity flag where the code
tests for it (`math.isnan(latitude)`).

The estimator classes (`EKF`, `ParticleFilter`) and the coordinate-frame
class (`Graph`) are not part of the given sources (only their callers
are); they are modelled from the specification, marked as such in their
doc comments.  The node state additionally carries an instrumentation log
of estimator invocations and the list of published messages, so that
temporal claims about which estimator code runs on which tick can be
stated and proved.
-/

namespace MiniAV

/-- The 4-component state vector `[x, y, theta, v]` of
`self.state = np.zeros((4, 1))` in both nodes. -/
structure StateVec where
  x : ℝ
  y : ℝ
  theta : ℝ
  v : ℝ

/-- The eight dynamics parameters `dyn = [c_1, c_0, l, r_wheel, i_wheel, gamma, tau_0, omega_0]`
read from the node parameters. -/
structure DynParams where
  c1 : ℝ
  c0 : ℝ
  l : ℝ
  rWheel : ℝ
  iWheel : ℝ
  gamma : ℝ
  tau0 : ℝ
  omega0 : ℝ

/-- The default dynamics parameters declared in both nodes
(`declare_parameter` defaults for `c_1, c_0, l, r_wheel, i_wheel, gamma, tau_0, omega_0`). -/
noncomputable def dynDefaults : DynParams :=
  { c1 := 0.0001, c0 := 0.02, l := 0.5, rWheel := 0.08451952624,
    iWheel := 0.001, gamma := 0.33333333, tau0 := 0.3, omega0 := 30.0 }

/-- Modelled from the spec: the Dynamics Model `predict_state(state, control, dt)`
of `localization_shared_utils/dynamics.py`, which is not among the given source
files.  Per the spec it is a nonlinear 4-DOF single-track model: heading rate is
proportional to `v * steering / l`, speed rate combines a reduced-order
drivetrain (`tau_0`, `omega_0`, `gamma`, `r_wheel`, `i_wheel`) with rolling and
drag resistance (`c_0`, `c_1`), so that zero control makes speed decay.  The
exact closed form is a design choice of the implementer; no claim proved below
depends on the particular choice made here. -/
noncomputable def predict_state (p : DynParams) (dt : ℝ) (s : StateVec)
    (throttle steer : ℝ) : StateVec :=
  { x := s.x + dt * s.v * Real.cos s.theta
    y := s.y + dt * s.v * Real.sin s.theta
    theta := s.theta + dt * s.v * steer / p.l
    v := s.v + dt * ((p.tau0 * throttle * (1 - p.gamma * s.v / (p.rWheel * p.omega0))
            * p.gamma / p.rWheel - p.c0 - p.c1 * s.v) / p.iWheel) }

/-- Modelled from the spec: `jacobian_state(state, control, dt)` of the Dynamics
Model, the 4 by 4 derivative of `predict_state` with respect to the state,
computed for the closed form chosen above. -/
noncomputable def jacobian_state (p : DynParams) (dt : ℝ) (s : StateVec)
    (throttle steer : ℝ) : Matrix (Fin 4) (Fin 4) ℝ :=
  !![1, 0, -(dt * s.v * Real.sin s.theta), dt * Real.cos s.theta;
     0, 1, dt * s.v * Real.cos s.theta, dt * Real.sin s.theta;
     0, 0, 1, dt * steer / p.l;
     0, 0, 0, 1 + dt * ((-(p.tau0 * throttle * p.gamma * p.gamma
           / (p.rWheel * p.rWheel * p.omega0)) - p.c1) / p.iWheel)]

/-- Modelled from the spec: the Coordinate Frame Manager
(`chrono_coordinate_transfer.Graph`, also obtained through
`get_coordinate_transfer()`), which is not among the given source files.  It
owns the one-time origin and rotation of the local tangent plane.  In addition
to the stored origin and rotation the model records the argument of every
`set_graph` / `set_rotation` call, so that claims about which fixes anchor the
frame can be stated. -/
structure Graph where
  origin : Option (ℝ × ℝ × ℝ)
  rotation : Option ℝ
  setGraphArgs : List (ℝ × ℝ × ℝ)
  setRotationArgs : List ℝ

/-- The freshly constructed frame manager: nothing set, no calls recorded. -/
def Graph.init : Graph := { origin := none, rotation := none, setGraphArgs := [], setRotationArgs := [] }

/-- Modelled from the spec: `set_graph(lat, lon, alt)` establishes the frame
origin; per the spec it is effectively callable only once (a no-op when the
origin is already set).  The call argument is always recorded. -/
def Graph.set_graph (g : Graph) (lat lon alt : ℝ) : Graph :=
  { g with origin := if g.origin.isSome then g.origin else some (lat, lon, alt),
           setGraphArgs := g.setGraphArgs ++ [(lat, lon, alt)] }

/-- Modelled from the spec: `set_rotation(theta)` stores the frame rotation;
effectively callable only once.  The call argument is always recorded. -/
def Graph.set_rotation (g : Graph) (theta : ℝ) : Graph :=
  { g with rotation := if g.rotation.isSome then g.rotation else some theta,
           setRotationArgs := g.setRotationArgs ++ [theta] }

/-- Degrees to radians, `np.deg2rad`. -/
noncomputable def deg2rad (d : ℝ) : ℝ := d * Real.pi / 180

/-- Modelled from the spec: `gps2cartesian(lat, lon, alt)` projects a geodetic
fix into the still-unrotated local frame relative to the stored origin, by a
standard tangent-plane projection (an equirectangular projection with the WGS84
equatorial radius stands in for the unspecified "ellipsoidal-to-ENU or
equivalent" formula; no claim proved below depends on the projection formula).
Before the origin is set the projection is the identity on offsets from zero. -/
noncomputable def Graph.gps2cartesian (g : Graph) (lat lon alt : ℝ) : ℝ × ℝ × ℝ :=
  match g.origin with
  | none => (0, 0, 0)
  | some o =>
      (6378137 * (deg2rad lon - deg2rad o.2.1) * Real.cos (deg2rad o.1),
       6378137 * (deg2rad lat - deg2rad o.1),
       alt - o.2.2)

/-- Modelled from the spec: `rotate(x, y, z)` applies the stored planar
rotation to a projected point; identity before the rotation is set. -/
noncomputable def Graph.rotate (g : Graph) (x y z : ℝ) : ℝ × ℝ × ℝ :=
  match g.rotation with
  | none => (x, y, z)
  | some r => (x * Real.cos r + y * Real.sin r, -(x * Real.sin r) + y * Real.cos r, z)

/-- Python `math.atan2 y x`, modelled as the complex argument of `x + y*I`,
which agrees with `atan2` on all of its domain and sends `(0, 0)` to `0`. -/
noncomputable def atan2 (y x : ℝ) : ℝ := Complex.arg ⟨x, y⟩

/-- The loop `while self.D > 360: self.D = self.D - 360` of `mag_callback`. -/
noncomputable def wrapOver360 (d : ℝ) : ℝ :=
  if h : d > 360 then wrapOver360 (d - 360) else d
termination_by (⌈d / 360⌉).toNat
decreasing_by
  have h1 : (1 : ℝ) < d / 360 := by
    rw [lt_div_iff₀ (by norm_num : (0 : ℝ) < 360)]; linarith
  have h2 : (1 : ℤ) < ⌈d / 360⌉ := by
    exact Int.lt_ceil.mpr (by push_cast; linarith)
  have h3 : ⌈(d - 360) / 360⌉ = ⌈d / 360⌉ - 1 := by
    have hd : (d - 360) / 360 = d / 360 - (1 : ℤ) := by push_cast; ring
    rw [hd, Int.ceil_sub_int]
  omega

/-- The loop `while self.D < 0: self.D = self.D + 360` of `mag_callback`. -/
noncomputable def wrapUnder0 (d : ℝ) : ℝ :=
  if h : d < 0 then wrapUnder0 (d + 360) else d
termination_by (⌈-d / 360⌉).toNat
decreasing_by
  have h1 : (0 : ℝ) < -d / 360 := div_pos (by linarith) (by norm_num)
  have h2 : (0 : ℤ) < ⌈-d / 360⌉ := Int.ceil_pos.mpr h1
  have h3 : ⌈-(d + 360) / 360⌉ = ⌈-d / 360⌉ - 1 := by
    have hd : -(d + 360) / 360 = -d / 360 - (1 : ℤ) := by push_cast; ring
    rw [hd, Int.ceil_sub_int]
  omega

/-- The heading computation of `mag_callback`, shared verbatim by both nodes:
Gauss conversion of the raw field, `atan2` in degrees with the special case for
`xGauss == 0`, then the two wrapping loops. -/
noncomputable def computeHeading (magX magY : ℝ) : ℝ :=
  let xGauss := magX * 0.48828125
  let yGauss := magY * 0.4882815
  let d : ℝ :=
    if xGauss = 0 then (if yGauss < 0 then 0 else 90)
    else atan2 yGauss xGauss * 180 / Real.pi
  wrapUnder0 (wrapOver360 d)

/-- Modelled from the spec: the internal state of the `EKF` class
(`EKF(dt, dyn, Q, R)` resp. `EKF(dt, dynamics_model, Q, R)`), which is not
among the given source files: the fixed timestep, the dynamics parameters, the
process and observation noise diagonals, and the covariance `P`.  The spec does
not state the initial covariance; the identity is used and no claim proved
below depends on it. -/
structure EKFModel where
  dt : ℝ
  dyn : DynParams
  Q : Fin 4 → ℝ
  R : Fin 3 → ℝ
  P : Matrix (Fin 4) (Fin 4) ℝ

/-- The linear time-invariant observation matrix `H` selecting `x`, `y`,
`theta` from the state, as the spec prescribes. -/
def obsH : Matrix (Fin 3) (Fin 4) ℝ :=
  !![1, 0, 0, 0; 0, 1, 0, 0; 0, 0, 1, 0]

/-- Modelled from the spec: wrapping of the heading innovation to the shortest
angular distance, into the interval from minus pi to pi. -/
noncomputable def wrapInnovation (d : ℝ) : ℝ :=
  d - 2 * Real.pi * (round (d / (2 * Real.pi)) : ℤ)

/-- Modelled from the spec: `EKF.predict(state, u)` advances the state through
the Dynamics Model by the fixed timestep and propagates the covariance as
`P = F * P * F.transpose + Q_diag` with `F = jacobian_state`.  Returns the
updated filter object together with the new state, mirroring the Python
object mutation plus return value. -/
noncomputable def EKF.predict (e : EKFModel) (s : StateVec) (u : ℝ × ℝ) :
    EKFModel × StateVec :=
  ({ e with P := jacobian_state e.dyn e.dt s u.1 u.2 * e.P
        * (jacobian_state e.dyn e.dt s u.1 u.2).transpose + Matrix.diagonal e.Q },
   predict_state e.dyn e.dt s u.1 u.2)

/-- Modelled from the spec: `EKF.correct(state, z)` computes the innovation
(with the heading component wrapped to the shortest angular distance), the
innovation covariance `S`, the Kalman gain `K`, and updates state and
covariance; when `S` is singular the correction is skipped and the predicted
state retained, as the numerical policy of the spec requires. -/
noncomputable def EKF.correct (e : EKFModel) (s : StateVec) (z : Fin 3 → ℝ) :
    EKFModel × StateVec :=
  let xv : Fin 4 → ℝ := ![s.x, s.y, s.theta, s.v]
  let y0 : Fin 3 → ℝ := z - obsH.mulVec xv
  let y : Fin 3 → ℝ := ![y0 0, y0 1, wrapInnovation (y0 2)]
  let S : Matrix (Fin 3) (Fin 3) ℝ := obsH * e.P * obsH.transpose + Matrix.diagonal e.R
  if S.det = 0 then (e, s)
  else
    let K : Matrix (Fin 4) (Fin 3) ℝ := e.P * obsH.transpose * S⁻¹
    let d : Fin 4 → ℝ := K.mulVec y
    ({ e with P := (1 - K * obsH) * e.P },
     { x := s.x + d 0, y := s.y + d 1, theta := s.theta + d 2, v := s.v + d 3 })

/-- Modelled from the spec: the internal state of the `ParticleFilter` class
(`PF(dt, dyn)`), which is not among the given source files: an ordered
collection of weighted full-state samples, the timestep and dynamics, the
process and observation noise diagonals (the constructor receives no `Q`, `R`,
so the node defaults stand in), and an injected process-noise stream with a
cursor, standing in for the sampled randomness of the Python code. -/
structure PFModel where
  dt : ℝ
  dyn : DynParams
  Qd : Fin 4 → ℝ
  Rd : Fin 3 → ℝ
  particles : List (StateVec × ℝ)
  noise : ℕ → Fin 4 → ℝ
  idx : ℕ

/-- Instrumentation events: which estimator code a run invokes. -/
inductive Event
  | predictE
  | correctE
  | pfPropagateE
  | pfReweightE
  | pfResampleE
deriving DecidableEq

/-- Result of one combined particle-filter update: the new filter object, the
point estimate, and the instrumentation events the update performed. -/
structure PFResult where
  model : PFModel
  estimate : StateVec
  events : List Event

/-- Helper for resampling: walk the cumulative weights and select the particle
containing position `p`. -/
noncomputable def pfSelect : List (StateVec × ℝ) → ℝ → StateVec
  | [], _ => { x := 0, y := 0, theta := 0, v := 0 }
  | (st, w) :: rest, p => if p ≤ w then st else pfSelect rest (p - w)

/-- Modelled from the spec: `ParticleFilter.update(u, z)`, the combined
predict-and-correct call.  Every particle is propagated through the Dynamics
Model with injected process noise scaled by the `Q` diagonal, reweighted by a
Gaussian likelihood of the observation with the `R` diagonal, weights are
normalized, a systematic resampling is performed when the effective sample
size falls below half the particle count, and the weighted mean (circular mean
for the heading) is returned as the point estimate.  The events record that a
propagation and a reweighting happen on every call, and a resampling exactly
when the effective-sample-size test fires. -/
noncomputable def PF.update (pf : PFModel) (u : ℝ × ℝ) (z : Fin 3 → ℝ) : PFResult :=
  let prop : List (StateVec × ℝ) :=
    pf.particles.enum.map (fun q =>
      let st := predict_state pf.dyn pf.dt q.2.1 u.1 u.2
      ({ x := st.x + pf.noise (pf.idx + q.1) 0 * Real.sqrt (pf.Qd 0),
         y := st.y + pf.noise (pf.idx + q.1) 1 * Real.sqrt (pf.Qd 1),
         theta := st.theta + pf.noise (pf.idx + q.1) 2 * Real.sqrt (pf.Qd 2),
         v := st.v + pf.noise (pf.idx + q.1) 3 * Real.sqrt (pf.Qd 3) }, q.2.2))
  let weighted : List (StateVec × ℝ) :=
    prop.map (fun q =>
      (q.1, q.2 * Real.exp (-(((q.1.x - z 0) ^ 2 / pf.Rd 0) + ((q.1.y - z 1) ^ 2 / pf.Rd 1)
          + ((wrapInnovation (q.1.theta - z 2)) ^ 2 / pf.Rd 2)) / 2)))
  let tot : ℝ := (weighted.map Prod.snd).sum
  let norm : List (StateVec × ℝ) := weighted.map (fun q => (q.1, q.2 / tot))
  let n : ℕ := norm.length
  let ess : ℝ := 1 / ((norm.map (fun q => q.2 ^ 2)).sum)
  let resampled : Bool := decide (ess < (n : ℝ) / 2)
  let final : List (StateVec × ℝ) :=
    if resampled then (List.range n).map (fun i => (pfSelect norm ((i + 1 / 2) / n), 1 / n))
    else norm
  let mx : ℝ := (norm.map (fun q => q.2 * q.1.x)).sum
  let my : ℝ := (norm.map (fun q => q.2 * q.1.y)).sum
  let mv : ℝ := (norm.map (fun q => q.2 * q.1.v)).sum
  let mth : ℝ := atan2 ((norm.map (fun q => q.2 * Real.sin q.1.theta)).sum)
                       ((norm.map (fun q => q.2 * Real.cos q.1.theta)).sum)
  { model := { pf with particles := final, idx := pf.idx + n },
    estimate := { x := mx, y := my, theta := mth, v := mv },
    events := [Event.pfPropagateE, Event.pfReweightE]
        ++ (if resampled then [Event.pfResampleE] else []) }

/-- The `EstimationAlgorithmOption` enum of `state_estimation.py`, a plain
Python `Enum` whose member values are the strings `"ground_truth"`,
`"extended_kalman_filter"`, `"particle_filter"`. -/
inductive EstimationAlgorithmOption
  | GROUND_TRUTH
  | EXTENDED_KALMAN_FILTER
  | PARTICLE_FILTER
deriving DecidableEq

/-- The `.value` string of each enum member, as defined in the source. -/
def EstimationAlgorithmOption.value : EstimationAlgorithmOption → String
  | .GROUND_TRUTH => "ground_truth"
  | .EXTENDED_KALMAN_FILTER => "extended_kalman_filter"
  | .PARTICLE_FILTER => "particle_filter"

/-- The comparison `self.estimation_alg == EstimationAlgorithmOption.X` that
`state_estimation.py` performs in `__init__` and `pub_callback`.  In Python,
`self.estimation_alg` is the `str` returned by
`get_parameter(...).get_parameter_value().string_value`, while the right-hand
side is a member of a plain `Enum` (not a `str` mixin); `Enum` does not define
equality with strings, `str.__eq__` returns `NotImplemented` for it, and the
fallback is object identity, so the comparison is `False` for every string,
including the members' own `.value` strings.  The model embeds exactly this
semantics. -/
def pyStrEnumEq (_s : String) (_e : EstimationAlgorithmOption) : Bool := false

/-- A published `VehicleState` message: `pose.position.x/y`,
`pose.orientation.z`, `twist.linear.x/y`. -/
structure PubMsg where
  px : ℝ
  py : ℝ
  oz : ℝ
  vx : ℝ
  vy : ℝ

/-- The mutable attribute state of `StateEstimationNode` in
`state_estimation.py`, restricted to the attributes the callbacks and the tick
read or write.  `log` and `published` are instrumentation: the estimator
invocations performed and the messages published so far.  Attributes that
Python creates lazily inside a callback (`lat`, `lon`, `alt`, `z`) are carried
from the start with value `0`. -/
structure SENode where
  estimation_alg : String
  x : ℝ
  y : ℝ
  z : ℝ
  lat : ℝ
  lon : ℝ
  alt : ℝ
  state : StateVec
  init_x : ℝ
  init_y : ℝ
  init_theta : ℝ
  init_v : ℝ
  gps_ready : Bool
  gtx : ℝ
  gty : ℝ
  gtvx : ℝ
  gtvy : ℝ
  D : ℝ
  origin_set : Bool
  orig_heading_set : Bool
  throttle : ℝ
  steering : ℝ
  dt_gps : ℝ
  graph : Graph
  ekf : EKFModel
  pf : PFModel
  log : List Event
  published : List PubMsg

/-- `inputs_callback`: latest-value buffering of throttle and steering. -/
def SENode.inputsCallback (s : SENode) (throttle steering : ℝ) : SENode :=
  { s with steering := steering, throttle := throttle }

/-- `ground_truth_callback`: latest-value buffering of the true pose and
velocity. -/
def SENode.groundTruthCallback (s : SENode) (px py vx vy : ℝ) : SENode :=
  { s with gtx := px, gty := py, gtvx := vx, gtvy := vy }

/-- `mag_callback` of `state_estimation.py`: compute and store the heading
`D`; on the first sample also latch the original heading, set the frame
rotation to `deg2rad(D) - init_theta` and overwrite the heading component of
the state vector with `init_theta`. -/
noncomputable def SENode.magCallback (s : SENode) (magX magY _magZ : ℝ) : SENode :=
  let d := computeHeading magX magY
  if s.orig_heading_set then { s with D := d }
  else
    { s with D := d, orig_heading_set := true,
             graph := s.graph.set_rotation (deg2rad d - s.init_theta),
             state := { s.state with theta := s.init_theta } }

/-- `gps_callback` of `state_estimation.py`: substitute the sentinel
`(-10, -10, -10)` when the latitude is NaN, set the freshness flag, anchor the
frame on the first fix, project the fix, and rotate into the buffered `x`, `y`
only once the original heading is latched. -/
noncomputable def SENode.gpsCallback (s : SENode) (latIsNan : Bool) (mlat mlon malt : ℝ) :
    SENode :=
  let la := if latIsNan then -10 else mlat
  let lo := if latIsNan then -10 else mlon
  let al := if latIsNan then -10 else malt
  let s1 := { s with gps_ready := true, lat := la, lon := lo, alt := al }
  let s2 := if s1.origin_set then s1
            else { s1 with origin_set := true, graph := s1.graph.set_graph la lo al }
  let c := s2.graph.gps2cartesian la lo al
  if s2.orig_heading_set then
    let r := s2.graph.rotate c.1 c.2.1 c.2.2
    { s2 with x := r.1 + s2.init_x, y := r.2.1 + s2.init_y, z := r.2.2 }
  else s2

/-- `EKFstep` of `state_estimation.py`: always predict; correct exactly when
the freshness flag is set, and clear the flag after consuming it. -/
noncomputable def SENode.EKFstep (s : SENode) (u : ℝ × ℝ) (zv : Fin 3 → ℝ) : SENode :=
  let pr := EKF.predict s.ekf s.state u
  let s1 := { s with ekf := pr.1, state := pr.2, log := s.log ++ [Event.predictE] }
  if s1.gps_ready then
    let co := EKF.correct s1.ekf s1.state zv
    { s1 with ekf := co.1, state := co.2, gps_ready := false,
              log := s1.log ++ [Event.correctE] }
  else s1

/-- `PFstep` of `state_estimation.py`: a single unconditional combined
`pf.update(u, z)` whose result replaces the state. -/
noncomputable def SENode.PFstep (s : SENode) (u : ℝ × ℝ) (zv : Fin 3 → ℝ) : SENode :=
  let r := PF.update s.pf u zv
  { s with pf := r.model, state := r.estimate, log := s.log ++ r.events }

/-- `pub_callback` of `state_estimation.py`: build the input and observation
vectors, dispatch on the configured mode with the source's string-to-enum
comparisons, then publish either the ground-truth branch or the state branch
of the message. -/
noncomputable def SENode.pubCallback (s : SENode) : SENode :=
  let u : ℝ × ℝ := (s.throttle, s.steering / 2.2)
  let zv : Fin 3 → ℝ := ![s.x, s.y, deg2rad s.D]
  let s1 :=
    if pyStrEnumEq s.estimation_alg EstimationAlgorithmOption.EXTENDED_KALMAN_FILTER
    then s.EKFstep u zv
    else if pyStrEnumEq s.estimation_alg EstimationAlgorithmOption.PARTICLE_FILTER
    then s.PFstep u zv
    else s
  let msg : PubMsg :=
    if pyStrEnumEq s1.estimation_alg EstimationAlgorithmOption.GROUND_TRUTH then
      { px := s1.gtx, py := s1.gty, oz := deg2rad s1.D, vx := s1.gtvx, vy := s1.gtvy }
    else
      { px := s1.state.x, py := s1.state.y, oz := s1.state.theta,
        vx := s1.state.v * Real.cos s1.state.theta,
        vy := s1.state.v * Real.sin s1.state.theta }
  { s1 with published := s1.published ++ [msg] }

/-- Inbound events of the state-estimation node: the four subscriptions plus
the fixed-rate timer tick. -/
inductive Ev
  | gps (latIsNan : Bool) (lat lon alt : ℝ)
  | mag (magX magY magZ : ℝ)
  | gt (x y vx vy : ℝ)
  | inputs (throttle steering : ℝ)
  | tick

/-- One dispatch step of the state-estimation node. -/
noncomputable def SENode.step (s : SENode) : Ev → SENode
  | .gps nan la lo al => s.gpsCallback nan la lo al
  | .mag a b c => s.magCallback a b c
  | .gt a b c d => s.groundTruthCallback a b c d
  | .inputs t st => s.inputsCallback t st
  | .tick => s.pubCallback

/-- A run of the state-estimation node over a list of inbound events. -/
noncomputable def SENode.run (s : SENode) (t : List Ev) : SENode :=
  t.foldl SENode.step s

/-- The node state `StateEstimationNode.__init__` builds, with the declared
parameter defaults (`Q = [0.1, 0.1, 3, 0.1]`, `R = [0, 0, 0.3]`, the dynamics
defaults, `freq = 10`), for a given `estimation_alg` parameter string.
Because the mode comparison in `__init__` never matches, Python constructs
neither `self.ekf` nor `self.pf`; the model carries freshly constructed filter
objects in those slots (the particle filter holding 100 particles around the
initial state, with a zero injected-noise stream). -/
noncomputable def SENode.mkInit (alg : String) : SENode :=
  { estimation_alg := alg, x := 0, y := 0, z := 0, lat := 0, lon := 0, alt := 0,
    state := { x := 0, y := 0, theta := 0, v := 0 },
    init_x := 0, init_y := 0, init_theta := 0, init_v := 0,
    gps_ready := false, gtx := 0, gty := 0, gtvx := 0, gtvy := 0,
    D := 0, origin_set := false, orig_heading_set := false,
    throttle := 0, steering := 0, dt_gps := 1 / 10,
    graph := Graph.init,
    ekf := { dt := 1 / 10, dyn := dynDefaults, Q := ![0.1, 0.1, 3, 0.1],
             R := ![0, 0, 0.3], P := 1 },
    pf := { dt := 1 / 10, dyn := dynDefaults, Qd := ![0.1, 0.1, 3, 0.1],
            Rd := ![0, 0, 0.3],
            particles := List.replicate 100 ({ x := 0, y := 0, theta := 0, v := 0 }, 1 / 100),
            noise := fun _ _ => 0, idx := 0 },
    log := [], published := [] }

/-- The mutable attribute state of `EKFEstimationNode` in
`ekf_estimation.py`, restricted to the attributes the callbacks and the tick
read or write, with the same instrumentation as `SENode`. -/
structure EKFNode where
  ekf_vel_only : Bool
  x : ℝ
  y : ℝ
  z : ℝ
  lat : ℝ
  lon : ℝ
  alt : ℝ
  state : StateVec
  init_x : ℝ
  init_y : ℝ
  init_theta : ℝ
  init_v : ℝ
  gps_ready : Bool
  gtvx : ℝ
  gtvy : ℝ
  D : ℝ
  origin_set : Bool
  orig_heading_set : Bool
  throttle : ℝ
  steering : ℝ
  dt_gps : ℝ
  graph : Graph
  ekf : EKFModel
  log : List Event
  published : List PubMsg

/-- `inputs_callback` of `ekf_estimation.py`. -/
def EKFNode.inputsCallback (s : EKFNode) (throttle steering : ℝ) : EKFNode :=
  { s with steering := steering, throttle := throttle }

/-- `mag_callback` of `ekf_estimation.py`, identical to the one of
`state_estimation.py`. -/
noncomputable def EKFNode.magCallback (s : EKFNode) (magX magY _magZ : ℝ) : EKFNode :=
  let d := computeHeading magX magY
  if s.orig_heading_set then { s with D := d }
  else
    { s with D := d, orig_heading_set := true,
             graph := s.graph.set_rotation (deg2rad d - s.init_theta),
             state := { s.state with theta := s.init_theta } }

/-- `gps_callback` of `ekf_estimation.py`: like the one of
`state_estimation.py`, but additionally estimating a velocity
`(new - old) / dt_gps` from consecutive projected fixes once the heading is
latched. -/
noncomputable def EKFNode.gpsCallback (s : EKFNode) (latIsNan : Bool) (mlat mlon malt : ℝ) :
    EKFNode :=
  let la := if latIsNan then -10 else mlat
  let lo := if latIsNan then -10 else mlon
  let al := if latIsNan then -10 else malt
  let s1 := { s with gps_ready := true, lat := la, lon := lo, alt := al }
  let s2 := if s1.origin_set then s1
            else { s1 with origin_set := true, graph := s1.graph.set_graph la lo al }
  let c := s2.graph.gps2cartesian la lo al
  if s2.orig_heading_set then
    let r := s2.graph.rotate c.1 c.2.1 c.2.2
    { s2 with gtvx := (r.1 - s2.x) / s2.dt_gps, gtvy := (r.2.1 - s2.y) / s2.dt_gps,
              x := r.1 + s2.init_x, y := r.2.1 + s2.init_y, z := r.2.2 }
  else s2

/-- `EKFstep` of `ekf_estimation.py`: always predict; correct exactly when the
freshness flag is set, and clear the flag after consuming it.  Identical to
the `EKFstep` of `state_estimation.py`. -/
noncomputable def EKFNode.EKFstep (s : EKFNode) (u : ℝ × ℝ) (zv : Fin 3 → ℝ) : EKFNode :=
  let pr := EKF.predict s.ekf s.state u
  let s1 := { s with ekf := pr.1, state := pr.2, log := s.log ++ [Event.predictE] }
  if s1.gps_ready then
    let co := EKF.correct s1.ekf s1.state zv
    { s1 with ekf := co.1, state := co.2, gps_ready := false,
              log := s1.log ++ [Event.correctE] }
  else s1

/-- `pub_callback` of `ekf_estimation.py`: build the input and observation
vectors, step the EKF unconditionally, then publish.  With `ekf_vel_only` the
position fields carry the raw buffered measurement `x`, `y` instead of the
state estimate; orientation and velocity always come from the state. -/
noncomputable def EKFNode.pubCallback (s : EKFNode) : EKFNode :=
  let u : ℝ × ℝ := (s.throttle, s.steering / 2.2)
  let zv : Fin 3 → ℝ := ![s.x, s.y, deg2rad s.D]
  let s1 := s.EKFstep u zv
  let msg : PubMsg :=
    { px := if s1.ekf_vel_only then s1.x else s1.state.x,
      py := if s1.ekf_vel_only then s1.y else s1.state.y,
      oz := s1.state.theta,
      vx := s1.state.v * Real.cos s1.state.theta,
      vy := s1.state.v * Real.sin s1.state.theta }
  { s1 with published := s1.published ++ [msg] }

/-- Inbound events of the EKF estimation node: its three subscriptions plus
the fixed-rate timer tick (this node has no ground-truth subscription). -/
inductive EvK
  | gps (latIsNan : Bool) (lat lon alt : ℝ)
  | mag (magX magY magZ : ℝ)
  | inputs (throttle steering : ℝ)
  | tick

/-- One dispatch step of the EKF estimation node. -/
noncomputable def EKFNode.step (s : EKFNode) : EvK → EKFNode
  | .gps nan la lo al => s.gpsCallback nan la lo al
  | .mag a b c => s.magCallback a b c
  | .inputs t st => s.inputsCallback t st
  | .tick => s.pubCallback

/-- A run of the EKF estimation node over a list of inbound events. -/
noncomputable def EKFNode.run (s : EKFNode) (t : List EvK) : EKFNode :=
  t.foldl EKFNode.step s

/-- The node state `EKFEstimationNode.__init__` builds, with the declared
parameter defaults, for a given `ekf_vel_only` flag. -/
noncomputable def EKFNode.mkInit (velOnly : Bool) : EKFNode :=
  { ekf_vel_only := velOnly, x := 0, y := 0, z := 0, lat := 0, lon := 0, alt := 0,
    state := { x := 0, y := 0, theta := 0, v := 0 },
    init_x := 0, init_y := 0, init_theta := 0, init_v := 0,
    gps_ready := false, gtvx := 0, gtvy := 0,
    D := 0, origin_set := false, orig_heading_set := false,
    throttle := 0, steering := 0, dt_gps := 1 / 10,
    graph := Graph.init,
    ekf := { dt := 1 / 10, dyn := dynDefaults, Q := ![0.1, 0.1, 3, 0.1],
             R := ![0, 0, 0.3], P := 1 },
    log := [], published := [] }

/-- Synchronisation of the node latches with the frame manager: whenever a
latch is still unset nothing has been stored or called on the corresponding
half of the frame, and once it is set exactly one anchoring call has
happened. -/
def SENode.frameInv (s : SENode) : Prop :=
  (s.origin_set = false → s.graph.origin = none ∧ s.graph.setGraphArgs = [])
  ∧ (s.origin_set = true → s.graph.setGraphArgs.length = 1)
  ∧ (s.orig_heading_set = false → s.graph.rotation = none ∧ s.graph.setRotationArgs = [])
  ∧ (s.orig_heading_set = true → s.graph.setRotationArgs.length = 1)

/-- The same latch-frame synchronisation for the EKF estimation node. -/
def EKFNode.frameInv (s : EKFNode) : Prop :=
  (s.origin_set = false → s.graph.origin = none ∧ s.graph.setGraphArgs = [])
  ∧ (s.origin_set = true → s.graph.setGraphArgs.length = 1)
  ∧ (s.orig_heading_set = false → s.graph.rotation = none ∧ s.graph.setRotationArgs = [])
  ∧ (s.orig_heading_set = true → s.graph.setRotationArgs.length = 1)

theorem SENode.run_nil (s : SENode) : s.run [] = s := rfl

theorem SENode.run_cons (s : SENode) (e : Ev) (t : List Ev) :
    s.run (e :: t) = (s.step e).run t := rfl

theorem EKFNode.runK_nil (s : EKFNode) : s.run [] = s := rfl

theorem EKFNode.runK_cons (s : EKFNode) (e : EvK) (t : List EvK) :
    s.run (e :: t) = (s.step e).run t := rfl

theorem wrapOver360_of_le {d : ℝ} (h : d ≤ 360) : wrapOver360 d = d := by
  rw [wrapOver360]
  exact dif_neg (not_lt.mpr h)

theorem wrapUnder0_of_nonneg {d : ℝ} (h : 0 ≤ d) : wrapUnder0 d = d := by
  rw [wrapUnder0]
  exact dif_neg (not_lt.mpr h)

theorem wrapUnder0_of_neg {d : ℝ} (h0 : -360 ≤ d) (h1 : d < 0) :
    wrapUnder0 d = d + 360 := by
  rw [wrapUnder0, dif_pos h1]
  exact wrapUnder0_of_nonneg (by linarith)

/-- The heading stored by `mag_callback` always lands in the canonical range
`[0, 360)` of degrees: the `atan2` branch starts in `(-180, 180]` and the two
wrapping loops bring any such value into `[0, 360)`; the `xGauss == 0` branch
produces `0` or `90` directly. -/
theorem computeHeading_range (magX magY : ℝ) :
    0 ≤ computeHeading magX magY ∧ computeHeading magX magY < 360 := by
  simp only [computeHeading]
  by_cases hx : magX * 0.48828125 = 0
  · rw [if_pos hx]
    by_cases hy : magY * 0.4882815 < 0
    · rw [if_pos hy, wrapOver360_of_le (by norm_num), wrapUnder0_of_nonneg le_rfl]
      norm_num
    · rw [if_neg hy, wrapOver360_of_le (by norm_num), wrapUnder0_of_nonneg (by norm_num)]
      norm_num
  · rw [if_neg hx]
    have hpi := Real.pi_pos
    have h1 : -Real.pi < atan2 (magY * 0.4882815) (magX * 0.48828125) :=
      Complex.neg_pi_lt_arg _
    have h2 : atan2 (magY * 0.4882815) (magX * 0.48828125) ≤ Real.pi :=
      Complex.arg_le_pi _
    set a := atan2 (magY * 0.4882815) (magX * 0.48828125) with ha
    have hu : a * 180 / Real.pi ≤ 180 := by
      rw [div_le_iff₀ hpi]
      nlinarith
    have hl : -180 < a * 180 / Real.pi := by
      rw [lt_div_iff₀ hpi]
      nlinarith
    rw [wrapOver360_of_le (by linarith)]
    by_cases h0 : 0 ≤ a * 180 / Real.pi
    · rw [wrapUnder0_of_nonneg h0]
      constructor <;> linarith
    · push_neg at h0
      rw [wrapUnder0_of_neg (by linarith) h0]
      constructor <;> linarith

/-- `EKFstep` appends a predict event, then a correct event exactly when the
freshness flag was set, and always leaves the flag cleared. -/
theorem EKFNode.EKFstep_log (s : EKFNode) (u : ℝ × ℝ) (zv : Fin 3 → ℝ) :
    (s.EKFstep u zv).log
        = s.log ++ [Event.predictE] ++ (if s.gps_ready then [Event.correctE] else [])
    ∧ (s.EKFstep u zv).gps_ready = false := by
  unfold EKFNode.EKFstep
  cases h : s.gps_ready <;> simp [h]

/-- `EKFstep` only touches the filter, the state vector, the freshness flag
and the log. -/
theorem EKFNode.EKFstep_preserves (s : EKFNode) (u : ℝ × ℝ) (zv : Fin 3 → ℝ) :
    (s.EKFstep u zv).x = s.x ∧ (s.EKFstep u zv).y = s.y
    ∧ (s.EKFstep u zv).published = s.published
    ∧ (s.EKFstep u zv).ekf_vel_only = s.ekf_vel_only
    ∧ (s.EKFstep u zv).graph = s.graph
    ∧ (s.EKFstep u zv).origin_set = s.origin_set
    ∧ (s.EKFstep u zv).orig_heading_set = s.orig_heading_set
    ∧ (s.EKFstep u zv).D = s.D := by
  unfold EKFNode.EKFstep
  cases h : s.gps_ready <;> simp [h]

/-- The tick of the EKF node: its log and freshness behaviour is that of
`EKFstep` on the buffered input and observation. -/
theorem EKFNode.pubCallback_log (s : EKFNode) :
    (s.pubCallback).log
        = s.log ++ [Event.predictE] ++ (if s.gps_ready then [Event.correctE] else [])
    ∧ (s.pubCallback).gps_ready = false := by
  unfold EKFNode.pubCallback
  simpa using s.EKFstep_log (s.throttle, s.steering / 2.2) ![s.x, s.y, deg2rad s.D]

/-- Consecutive ticks of the EKF node with the freshness flag already clear
are pure predict cycles. -/
theorem EKFNode.run_ticks_no_gps (s : EKFNode) (h : s.gps_ready = false) (n : ℕ) :
    (s.run (List.replicate n EvK.tick)).log = s.log ++ List.replicate n Event.predictE
    ∧ (s.run (List.replicate n EvK.tick)).gps_ready = false := by
  induction n generalizing s with
  | zero => simpa using ⟨rfl, h⟩
  | succ m ih =>
    obtain ⟨hl, hg⟩ := EKFNode.pubCallback_log s
    rw [h] at hl
    simp only [if_neg (by simp : ¬(false = true)), List.append_nil] at hl
    obtain ⟨il, ig⟩ := ih s.pubCallback hg
    rw [List.replicate_succ, EKFNode.runK_cons]
    have hstep : s.step EvK.tick = s.pubCallback := rfl
    rw [hstep]
    refine ⟨?_, ig⟩
    rw [il, hl, List.replicate_succ]
    simp

/-- The tick of the three-mode node never reaches an estimator: both dispatch
comparisons are string-against-enum and therefore false, so the tick only
publishes the state branch of the message. -/
theorem SENode.pubCallback_inert (s : SENode) :
    (s.pubCallback).log = s.log ∧ (s.pubCallback).state = s.state
    ∧ (s.pubCallback).gps_ready = s.gps_ready
    ∧ (s.pubCallback).graph = s.graph
    ∧ (s.pubCallback).origin_set = s.origin_set
    ∧ (s.pubCallback).orig_heading_set = s.orig_heading_set
    ∧ (s.pubCallback).gtx = s.gtx
    ∧ (s.pubCallback).published = s.published ++
        [{ px := s.state.x, py := s.state.y, oz := s.state.theta,
           vx := s.state.v * Real.cos s.state.theta,
           vy := s.state.v * Real.sin s.state.theta }] := by
  unfold SENode.pubCallback
  simp [pyStrEnumEq]

/-- Once the origin latch of the three-mode node is set, no step resets it,
calls `set_graph` again, or changes the stored origin. -/
theorem SENode.step_origin_latch (s : SENode) (e : Ev) (h : s.origin_set = true) :
    (s.step e).origin_set = true
    ∧ (s.step e).graph.origin = s.graph.origin
    ∧ (s.step e).graph.setGraphArgs = s.graph.setGraphArgs := by
  cases e with
  | gps nan la lo al =>
      unfold SENode.step SENode.gpsCallback
      cases h2 : s.orig_heading_set <;> simp [h, h2]
  | mag a b c =>
      unfold SENode.step SENode.magCallback
      cases h2 : s.orig_heading_set <;> simp [h, h2, Graph.set_rotation]
  | gt a b c d => exact ⟨h, rfl, rfl⟩
  | inputs a b => exact ⟨h, rfl, rfl⟩
  | tick =>
      obtain ⟨-, -, -, hg, ho, -, -, -⟩ := s.pubCallback_inert
      exact ⟨by rw [show s.step Ev.tick = s.pubCallback from rfl, ho, h],
             by rw [show s.step Ev.tick = s.pubCallback from rfl, hg],
             by rw [show s.step Ev.tick = s.pubCallback from rfl, hg]⟩

/-- Once the heading latch of the three-mode node is set, no step resets it,
calls `set_rotation` again, or changes the stored rotation. -/
theorem SENode.step_heading_latch (s : SENode) (e : Ev) (h : s.orig_heading_set = true) :
    (s.step e).orig_heading_set = true
    ∧ (s.step e).graph.rotation = s.graph.rotation
    ∧ (s.step e).graph.setRotationArgs = s.graph.setRotationArgs := by
  cases e with
  | gps nan la lo al =>
      unfold SENode.step SENode.gpsCallback
      cases h2 : s.origin_set <;> simp [h, h2, Graph.set_graph]
  | mag a b c =>
      unfold SENode.step SENode.magCallback
      simp [h]
  | gt a b c d => exact ⟨h, rfl, rfl⟩
  | inputs a b => exact ⟨h, rfl, rfl⟩
  | tick =>
      obtain ⟨-, -, -, hg, -, hh, -, -⟩ := s.pubCallback_inert
      exact ⟨by rw [show s.step Ev.tick = s.pubCallback from rfl, hh, h],
             by rw [show s.step Ev.tick = s.pubCallback from rfl, hg],
             by rw [show s.step Ev.tick = s.pubCallback from rfl, hg]⟩

/-- Once the origin latch of the EKF node is set, no step resets it, calls
`set_graph` again, or changes the stored origin. -/
theorem EKFNode.stepK_origin_latch (s : EKFNode) (e : EvK) (h : s.origin_set = true) :
    (s.step e).origin_set = true
    ∧ (s.step e).graph.origin = s.graph.origin
    ∧ (s.step e).graph.setGraphArgs = s.graph.setGraphArgs := by
  cases e with
  | gps nan la lo al =>
      unfold EKFNode.step EKFNode.gpsCallback
      cases h2 : s.orig_heading_set <;> simp [h, h2]
  | mag a b c =>
      unfold EKFNode.step EKFNode.magCallback
      cases h2 : s.orig_heading_set <;> simp [h, h2, Graph.set_rotation]
  | inputs a b => exact ⟨h, rfl, rfl⟩
  | tick =>
      obtain ⟨-, -, -, -, hg, ho, -, -⟩ :=
        s.EKFstep_preserves (s.throttle, s.steering / 2.2) ![s.x, s.y, deg2rad s.D]
      have hstep : s.step EvK.tick = s.pubCallback := rfl
      unfold EKFNode.pubCallback at hstep
      exact ⟨by rw [hstep]; simpa [ho] using h, by rw [hstep]; simp [hg],
             by rw [hstep]; simp [hg]⟩

/-- Once the heading latch of the EKF node is set, no step resets it, calls
`set_rotation` again, or changes the stored rotation. -/
theorem EKFNode.stepK_heading_latch (s : EKFNode) (e : EvK) (h : s.orig_heading_set = true) :
    (s.step e).orig_heading_set = true
    ∧ (s.step e).graph.rotation = s.graph.rotation
    ∧ (s.step e).graph.setRotationArgs = s.graph.setRotationArgs := by
  cases e with
  | gps nan la lo al =>
      unfold EKFNode.step EKFNode.gpsCallback
      cases h2 : s.origin_set <;> simp [h, h2, Graph.set_graph]
  | mag a b c =>
      unfold EKFNode.step EKFNode.magCallback
      simp [h]
  | inputs a b => exact ⟨h, rfl, rfl⟩
  | tick =>
      obtain ⟨-, -, -, -, hg, -, hh, -⟩ :=
        s.EKFstep_preserves (s.throttle, s.steering / 2.2) ![s.x, s.y, deg2rad s.D]
      have hstep : s.step EvK.tick = s.pubCallback := rfl
      unfold EKFNode.pubCallback at hstep
      exact ⟨by rw [hstep]; simpa [hh] using h, by rw [hstep]; simp [hg],
             by rw [hstep]; simp [hg]⟩

/-- Run-level persistence of the origin latch of the three-mode node. -/
theorem SENode.run_origin_latch (s : SENode) (t : List Ev) (h : s.origin_set = true) :
    (s.run t).origin_set = true
    ∧ (s.run t).graph.origin = s.graph.origin
    ∧ (s.run t).graph.setGraphArgs = s.graph.setGraphArgs := by
  induction t generalizing s with
  | nil => exact ⟨h, rfl, rfl⟩
  | cons e t ih =>
    obtain ⟨h1, h2, h3⟩ := s.step_origin_latch e h
    obtain ⟨g1, g2, g3⟩ := ih (s.step e) h1
    exact ⟨g1, g2.trans h2, g3.trans h3⟩

/-- Run-level persistence of the heading latch of the three-mode node. -/
theorem SENode.run_heading_latch (s : SENode) (t : List Ev) (h : s.orig_heading_set = true) :
    (s.run t).orig_heading_set = true
    ∧ (s.run t).graph.rotation = s.graph.rotation
    ∧ (s.run t).graph.setRotationArgs = s.graph.setRotationArgs := by
  induction t generalizing s with
  | nil => exact ⟨h, rfl, rfl⟩
  | cons e t ih =>
    obtain ⟨h1, h2, h3⟩ := s.step_heading_latch e h
    obtain ⟨g1, g2, g3⟩ := ih (s.step e) h1
    exact ⟨g1, g2.trans h2, g3.trans h3⟩

/-- Run-level persistence of the origin latch of the EKF node. -/
theorem EKFNode.runK_origin_latch (s : EKFNode) (t : List EvK) (h : s.origin_set = true) :
    (s.run t).origin_set = true
    ∧ (s.run t).graph.origin = s.graph.origin
    ∧ (s.run t).graph.setGraphArgs = s.graph.setGraphArgs := by
  induction t generalizing s with
  | nil => exact ⟨h, rfl, rfl⟩
  | cons e t ih =>
    obtain ⟨h1, h2, h3⟩ := s.stepK_origin_latch e h
    obtain ⟨g1, g2, g3⟩ := ih (s.step e) h1
    exact ⟨g1, g2.trans h2, g3.trans h3⟩

/-- Run-level persistence of the heading latch of the EKF node. -/
theorem EKFNode.runK_heading_latch (s : EKFNode) (t : List EvK) (h : s.orig_heading_set = true) :
    (s.run t).orig_heading_set = true
    ∧ (s.run t).graph.rotation = s.graph.rotation
    ∧ (s.run t).graph.setRotationArgs = s.graph.setRotationArgs := by
  induction t generalizing s with
  | nil => exact ⟨h, rfl, rfl⟩
  | cons e t ih =>
    obtain ⟨h1, h2, h3⟩ := s.stepK_heading_latch e h
    obtain ⟨g1, g2, g3⟩ := ih (s.step e) h1
    exact ⟨g1, g2.trans h2, g3.trans h3⟩

/-- Field-by-field description of `gps_callback` of the three-mode node. -/
theorem SENode.gpsCallback_spec (s : SENode) (nan : Bool) (la lo al : ℝ) :
    (s.gpsCallback nan la lo al).graph
        = (if s.origin_set then s.graph
           else s.graph.set_graph (if nan then -10 else la) (if nan then -10 else lo)
                  (if nan then -10 else al))
    ∧ (s.gpsCallback nan la lo al).origin_set = true
    ∧ (s.gpsCallback nan la lo al).orig_heading_set = s.orig_heading_set
    ∧ (s.gpsCallback nan la lo al).gps_ready = true
    ∧ (s.gpsCallback nan la lo al).state = s.state
    ∧ (s.gpsCallback nan la lo al).lat = (if nan then -10 else la)
    ∧ (s.gpsCallback nan la lo al).lon = (if nan then -10 else lo)
    ∧ (s.gpsCallback nan la lo al).alt = (if nan then -10 else al)
    ∧ (s.orig_heading_set = false →
        (s.gpsCallback nan la lo al).x = s.x ∧ (s.gpsCallback nan la lo al).y = s.y) := by
  unfold SENode.gpsCallback
  cases ho : s.origin_set <;> cases hh : s.orig_heading_set <;> simp [ho, hh]

/-- Field-by-field description of `mag_callback` of the three-mode node. -/
theorem SENode.magCallback_spec (s : SENode) (a b c : ℝ) :
    (s.magCallback a b c).D = computeHeading a b
    ∧ (s.magCallback a b c).orig_heading_set = true
    ∧ (s.magCallback a b c).origin_set = s.origin_set
    ∧ (s.magCallback a b c).gps_ready = s.gps_ready
    ∧ (s.magCallback a b c).graph
        = (if s.orig_heading_set then s.graph
           else s.graph.set_rotation (deg2rad (computeHeading a b) - s.init_theta))
    ∧ (s.magCallback a b c).state
        = (if s.orig_heading_set then s.state else { s.state with theta := s.init_theta })
    ∧ (s.magCallback a b c).init_theta = s.init_theta := by
  unfold SENode.magCallback
  cases h : s.orig_heading_set <;> simp [h]

/-- Field-by-field description of `gps_callback` of the EKF node. -/
theorem EKFNode.gpsCallbackK_spec (s : EKFNode) (nan : Bool) (la lo al : ℝ) :
    (s.gpsCallback nan la lo al).graph
        = (if s.origin_set then s.graph
           else s.graph.set_graph (if nan then -10 else la) (if nan then -10 else lo)
                  (if nan then -10 else al))
    ∧ (s.gpsCallback nan la lo al).origin_set = true
    ∧ (s.gpsCallback nan la lo al).orig_heading_set = s.orig_heading_set
    ∧ (s.gpsCallback nan la lo al).gps_ready = true
    ∧ (s.gpsCallback nan la lo al).state = s.state
    ∧ (s.gpsCallback nan la lo al).lat = (if nan then -10 else la)
    ∧ (s.gpsCallback nan la lo al).lon = (if nan then -10 else lo)
    ∧ (s.gpsCallback nan la lo al).alt = (if nan then -10 else al)
    ∧ (s.orig_heading_set = false →
        (s.gpsCallback nan la lo al).x = s.x ∧ (s.gpsCallback nan la lo al).y = s.y) := by
  unfold EKFNode.gpsCallback
  cases ho : s.origin_set <;> cases hh : s.orig_heading_set <;> simp [ho, hh]

/-- Field-by-field description of `mag_callback` of the EKF node. -/
theorem EKFNode.magCallbackK_spec (s : EKFNode) (a b c : ℝ) :
    (s.magCallback a b c).D = computeHeading a b
    ∧ (s.magCallback a b c).orig_heading_set = true
    ∧ (s.magCallback a b c).origin_set = s.origin_set
    ∧ (s.magCallback a b c).gps_ready = s.gps_ready
    ∧ (s.magCallback a b c).graph
        = (if s.orig_heading_set then s.graph
           else s.graph.set_rotation (deg2rad (computeHeading a b) - s.init_theta))
    ∧ (s.magCallback a b c).state
        = (if s.orig_heading_set then s.state else { s.state with theta := s.init_theta })
    ∧ (s.magCallback a b c).init_theta = s.init_theta := by
  unfold EKFNode.magCallback
  cases h : s.orig_heading_set <;> simp [h]

/-- Every step of the three-mode node preserves the latch-frame
synchronisation. -/
theorem SENode.step_frameInv (s : SENode) (e : Ev) (h : s.frameInv) : (s.step e).frameInv := by
  obtain ⟨h1, h2, h3, h4⟩ := h
  cases e with
  | gps nan la lo al =>
    show (s.gpsCallback nan la lo al).frameInv
    unfold SENode.frameInv SENode.gpsCallback
    cases hos : s.origin_set <;> cases hh : s.orig_heading_set <;>
      simp_all [Graph.set_graph]
  | mag a b c =>
    show (s.magCallback a b c).frameInv
    unfold SENode.frameInv SENode.magCallback
    cases hh : s.orig_heading_set <;> simp_all [Graph.set_rotation]
  | gt a b c d => exact ⟨h1, h2, h3, h4⟩
  | inputs a b => exact ⟨h1, h2, h3, h4⟩
  | tick =>
    show (s.pubCallback).frameInv
    obtain ⟨-, -, -, hg, ho, hh, -, -⟩ := s.pubCallback_inert
    unfold SENode.frameInv
    rw [hg, ho, hh]
    exact ⟨h1, h2, h3, h4⟩

/-- Every step of the EKF node preserves the latch-frame synchronisation. -/
theorem EKFNode.stepK_frameInv (s : EKFNode) (e : EvK) (h : s.frameInv) : (s.step e).frameInv := by
  obtain ⟨h1, h2, h3, h4⟩ := h
  cases e with
  | gps nan la lo al =>
    show (s.gpsCallback nan la lo al).frameInv
    unfold EKFNode.frameInv EKFNode.gpsCallback
    cases hos : s.origin_set <;> cases hh : s.orig_heading_set <;>
      simp_all [Graph.set_graph]
  | mag a b c =>
    show (s.magCallback a b c).frameInv
    unfold EKFNode.frameInv EKFNode.magCallback
    cases hh : s.orig_heading_set <;> simp_all [Graph.set_rotation]
  | inputs a b => exact ⟨h1, h2, h3, h4⟩
  | tick =>
    show (s.pubCallback).frameInv
    obtain ⟨-, -, -, -, hg, ho, hh, -⟩ :=
      s.EKFstep_preserves (s.throttle, s.steering / 2.2) ![s.x, s.y, deg2rad s.D]
    unfold EKFNode.frameInv
    have hstep : s.pubCallback.graph = (s.EKFstep (s.throttle, s.steering / 2.2)
        ![s.x, s.y, deg2rad s.D]).graph ∧ s.pubCallback.origin_set
          = (s.EKFstep (s.throttle, s.steering / 2.2) ![s.x, s.y, deg2rad s.D]).origin_set
        ∧ s.pubCallback.orig_heading_set
          = (s.EKFstep (s.throttle, s.steering / 2.2) ![s.x, s.y, deg2rad s.D]).orig_heading_set := by
      unfold EKFNode.pubCallback
      exact ⟨rfl, rfl, rfl⟩
    rw [hstep.1, hstep.2.1, hstep.2.2, hg, ho, hh]
    exact ⟨h1, h2, h3, h4⟩

/-- The latch-frame synchronisation holds along every run of the three-mode
node. -/
theorem SENode.run_frameInv (s : SENode) (t : List Ev) (h : s.frameInv) :
    (s.run t).frameInv := by
  induction t generalizing s with
  | nil => exact h
  | cons e t ih => exact ih _ (s.step_frameInv e h)

/-- The latch-frame synchronisation holds along every run of the EKF node. -/
theorem EKFNode.runK_frameInv (s : EKFNode) (t : List EvK) (h : s.frameInv) :
    (s.run t).frameInv := by
  induction t generalizing s with
  | nil => exact h
  | cons e t ih => exact ih _ (s.stepK_frameInv e h)

/-- The freshly constructed three-mode node satisfies the latch-frame
synchronisation. -/
theorem SENode.mkInit_frameInv (alg : String) : (SENode.mkInit alg).frameInv := by
  refine ⟨fun _ => ⟨rfl, rfl⟩, fun hc => ?_, fun _ => ⟨rfl, rfl⟩, fun hc => ?_⟩ <;>
    simp [SENode.mkInit] at hc

/-- The freshly constructed EKF node satisfies the latch-frame
synchronisation. -/
theorem EKFNode.mkInitK_frameInv (velOnly : Bool) : (EKFNode.mkInit velOnly).frameInv := by
  refine ⟨fun _ => ⟨rfl, rfl⟩, fun hc => ?_, fun _ => ⟨rfl, rfl⟩, fun hc => ?_⟩ <;>
    simp [EKFNode.mkInit] at hc

/-- Along any run from construction, `set_graph` and `set_rotation` are each
called at most once. -/
theorem SENode.run_anchor_calls (alg : String) (t : List Ev) :
    ((SENode.mkInit alg).run t).graph.setGraphArgs.length ≤ 1
    ∧ ((SENode.mkInit alg).run t).graph.setRotationArgs.length ≤ 1 := by
  obtain ⟨h1, h2, h3, h4⟩ := SENode.run_frameInv _ t (SENode.mkInit_frameInv alg)
  constructor
  · cases ho : ((SENode.mkInit alg).run t).origin_set
    · simp [(h1 ho).2]
    · simp [h2 ho]
  · cases hh : ((SENode.mkInit alg).run t).orig_heading_set
    · simp [(h3 hh).2]
    · simp [h4 hh]

/-- Along any run of the EKF node from construction, `set_graph` and
`set_rotation` are each called at most once. -/
theorem EKFNode.runK_anchor_calls (velOnly : Bool) (t : List EvK) :
    ((EKFNode.mkInit velOnly).run t).graph.setGraphArgs.length ≤ 1
    ∧ ((EKFNode.mkInit velOnly).run t).graph.setRotationArgs.length ≤ 1 := by
  obtain ⟨h1, h2, h3, h4⟩ := EKFNode.runK_frameInv _ t (EKFNode.mkInitK_frameInv velOnly)
  constructor
  · cases ho : ((EKFNode.mkInit velOnly).run t).origin_set
    · simp [(h1 ho).2]
    · simp [h2 ho]
  · cases hh : ((EKFNode.mkInit velOnly).run t).orig_heading_set
    · simp [(h3 hh).2]
    · simp [h4 hh]

/-- Claim C1: the three-mode controller is supposed to select one of
GROUND_TRUTH, EKF, PF at construction and dispatch each tick accordingly.
The code instead compares the `estimation_alg` parameter string against plain
`Enum` members, which is false for every string in Python, so no mode ever
matches: a tick in EKF or PF configuration invokes no estimator at all, and a
tick in GROUND_TRUTH configuration publishes the (never-estimated) state
branch instead of the buffered ground-truth sample.  This theorem evaluates
the embedded code at those failing inputs. -/
theorem C1_mode_dispatch_dead :
    (∀ (str : String) (e : EstimationAlgorithmOption), pyStrEnumEq str e = false)
    ∧ ((SENode.mkInit "extended_kalman_filter").run [Ev.tick]).log = []
    ∧ ((SENode.mkInit "particle_filter").run [Ev.tick]).log = []
    ∧ ((SENode.mkInit "ground_truth").run [Ev.gt 5 7 0 0, Ev.tick]).gtx = 5
    ∧ ((SENode.mkInit "ground_truth").run [Ev.gt 5 7 0 0, Ev.tick]).published.map PubMsg.px
        = [0] := by
  refine ⟨fun _ _ => rfl, ?_, ?_, ?_, ?_⟩
  · rw [SENode.run_cons, SENode.run_nil]
    exact (SENode.pubCallback_inert _).1
  · rw [SENode.run_cons, SENode.run_nil]
    exact (SENode.pubCallback_inert _).1
  · rw [SENode.run_cons, SENode.run_cons, SENode.run_nil]
    have h := (SENode.pubCallback_inert
        ((SENode.mkInit "ground_truth").groundTruthCallback 5 7 0 0)).2.2.2.2.2.2.1
    exact h.trans rfl
  · rw [SENode.run_cons, SENode.run_cons, SENode.run_nil]
    have h := (SENode.pubCallback_inert
        ((SENode.mkInit "ground_truth").groundTruthCallback 5 7 0 0)).2.2.2.2.2.2.2
    rw [show ((SENode.mkInit "ground_truth").step (Ev.gt 5 7 0 0)).step Ev.tick
        = ((SENode.mkInit "ground_truth").groundTruthCallback 5 7 0 0).pubCallback from rfl, h]
    simp [SENode.mkInit, SENode.groundTruthCallback]

/-- Claim C2: in the EKF node, every tick runs predict, and the correct step
runs on a tick exactly when the freshness flag was set by a GPS sample since
the last consumed correction; the flag is cleared on consumption, so any run
of consecutive ticks with no interleaved GPS sample performs at most one
correction. -/
theorem C2_ekf_predict_correct_protocol :
    (∀ s : EKFNode,
      (s.pubCallback).log
          = s.log ++ [Event.predictE] ++ (if s.gps_ready then [Event.correctE] else [])
      ∧ (s.pubCallback).gps_ready = false)
    ∧ (∀ (s : EKFNode) (n : Bool) (la lo al : ℝ), (s.gpsCallback n la lo al).gps_ready = true)
    ∧ (∀ (s : EKFNode) (n : ℕ), ∃ l : List Event,
        (s.run (List.replicate n EvK.tick)).log = s.log ++ l
        ∧ l.count Event.correctE ≤ 1) := by
  refine ⟨fun s => EKFNode.pubCallback_log s,
         fun s n la lo al => (s.gpsCallbackK_spec n la lo al).2.2.2.1,
         fun s n => ?_⟩
  cases n with
  | zero => exact ⟨[], by simp [EKFNode.runK_nil], by simp⟩
  | succ m =>
    obtain ⟨hl, hg⟩ := EKFNode.pubCallback_log s
    obtain ⟨hl2, -⟩ := EKFNode.run_ticks_no_gps s.pubCallback hg m
    refine ⟨([Event.predictE] ++ (if s.gps_ready then [Event.correctE] else []))
        ++ List.replicate m Event.predictE, ?_, ?_⟩
    · rw [List.replicate_succ, EKFNode.runK_cons,
          show s.step EvK.tick = s.pubCallback from rfl, hl2, hl]
      simp
    · cases s.gps_ready <;>
        simp [List.count_append, List.count_replicate, List.count_singleton]

/-- Claim C3 counterexample: when the very first GPS fix has NaN latitude the
node substitutes the sentinel `(-10, -10, -10)` and then anchors the frame
with exactly that sentinel (`set_graph` is called with it), and a later valid
fix does not re-anchor: the origin stays at the sentinel.  This contradicts
the claim that `set_graph` is invoked only with the first non-sentinel fix. -/
theorem C3_counterexample :
    ((SENode.mkInit "ground_truth").run [Ev.gps true 0 0 0]).graph.setGraphArgs
        = [((-10 : ℝ), (-10 : ℝ), (-10 : ℝ))]
    ∧ ((SENode.mkInit "ground_truth").run
          [Ev.gps true 0 0 0, Ev.gps false 34 (-118) 100]).graph.origin
        = some ((-10 : ℝ), (-10 : ℝ), (-10 : ℝ)) := by
  constructor
  · rw [SENode.run_cons, SENode.run_nil]
    have h := (SENode.gpsCallback_spec (SENode.mkInit "ground_truth") true 0 0 0).1
    rw [show (SENode.mkInit "ground_truth").step (Ev.gps true 0 0 0)
          = (SENode.mkInit "ground_truth").gpsCallback true 0 0 0 from rfl, h]
    simp [SENode.mkInit, Graph.init, Graph.set_graph]
  · rw [SENode.run_cons, SENode.run_cons, SENode.run_nil]
    set s1 := (SENode.mkInit "ground_truth").gpsCallback true 0 0 0 with hs1
    have hor : s1.origin_set = true :=
      (SENode.gpsCallback_spec (SENode.mkInit "ground_truth") true 0 0 0).2.1
    have h2 := (SENode.gpsCallback_spec s1 false 34 (-118) 100).1
    rw [show ((SENode.mkInit "ground_truth").step (Ev.gps true 0 0 0)).step
          (Ev.gps false 34 (-118) 100) = s1.gpsCallback false 34 (-118) 100 from rfl,
        h2, if_pos hor]
    have h1 := (SENode.gpsCallback_spec (SENode.mkInit "ground_truth") true 0 0 0).1
    rw [hs1, h1]
    simp [SENode.mkInit, Graph.init, Graph.set_graph]

/-- Claim C3 amended: a GPS fix with NaN latitude is substituted with the
sentinel `(-10, -10, -10)` and processing proceeds (the freshness flag is even
set); `set_graph` is invoked with the substituted coordinates of the first
fix whether or not it is the sentinel, and once the origin latch is set no
further `set_graph` call occurs. -/
theorem C3_amended_nan_sentinel :
    (∀ (s : SENode) (la lo al : ℝ),
        (s.gpsCallback true la lo al).lat = -10
        ∧ (s.gpsCallback true la lo al).lon = -10
        ∧ (s.gpsCallback true la lo al).alt = -10
        ∧ (s.gpsCallback true la lo al).gps_ready = true)
    ∧ (∀ (s : SENode) (nan : Bool) (la lo al : ℝ), s.origin_set = false →
        (s.gpsCallback nan la lo al).graph.setGraphArgs
            = s.graph.setGraphArgs ++ [(if nan then -10 else la, if nan then -10 else lo,
                if nan then -10 else al)]
        ∧ (s.gpsCallback nan la lo al).origin_set = true)
    ∧ (∀ (s : SENode) (nan : Bool) (la lo al : ℝ), s.origin_set = true →
        (s.gpsCallback nan la lo al).graph.setGraphArgs = s.graph.setGraphArgs) := by
  refine ⟨fun s la lo al => ?_, fun s nan la lo al h => ?_, fun s nan la lo al h => ?_⟩
  · obtain ⟨-, -, -, hf, -, hla, hlo, hal, -⟩ := s.gpsCallback_spec true la lo al
    exact ⟨by simpa using hla, by simpa using hlo, by simpa using hal, hf⟩
  · obtain ⟨hg, ho, -, -, -, -, -, -, -⟩ := s.gpsCallback_spec nan la lo al
    rw [hg, if_neg (by simp [h])]
    exact ⟨by simp [Graph.set_graph], ho⟩
  · obtain ⟨hg, -, -, -, -, -, -, -, -⟩ := s.gpsCallback_spec nan la lo al
    rw [hg, if_pos h]

/-- Witness for the amended claim C3, at the freshly constructed node and a
concrete NaN fix. -/
theorem C3_amended_witness :
    (SENode.mkInit "ground_truth").origin_set = false
    ∧ ((SENode.mkInit "ground_truth").gpsCallback true 1 2 3).lat = -10
    ∧ ((SENode.mkInit "ground_truth").gpsCallback true 1 2 3).graph.setGraphArgs
        = [((-10 : ℝ), (-10 : ℝ), (-10 : ℝ))] := by
  refine ⟨rfl, (C3_amended_nan_sentinel.1 (SENode.mkInit "ground_truth") 1 2 3).1, ?_⟩
  have h := (C3_amended_nan_sentinel.2.1 (SENode.mkInit "ground_truth") true 1 2 3 rfl).1
  rw [h]
  simp [SENode.mkInit, Graph.init]

/-- Claim C4 counterexample: a valid first GPS fix arrives before any
magnetometer sample, so the frame is not fully initialized (the heading latch
is still unset); the next tick nevertheless performs a correction, not a
predict-only cycle. -/
theorem C4_counterexample :
    ((EKFNode.mkInit false).run [EvK.gps false 34 (-118) 100]).orig_heading_set = false
    ∧ ((EKFNode.mkInit false).run [EvK.gps false 34 (-118) 100, EvK.tick]).log
        = [Event.predictE, Event.correctE]
    ∧ Event.correctE
        ∈ ((EKFNode.mkInit false).run [EvK.gps false 34 (-118) 100, EvK.tick]).log := by
  obtain ⟨-, -, hh, hf, -, -, -, -, -⟩ :=
    (EKFNode.mkInit false).gpsCallbackK_spec false 34 (-118) 100
  have hh0 : ((EKFNode.mkInit false).gpsCallback false 34 (-118) 100).orig_heading_set
      = false := hh.trans rfl
  have hrun1 : (EKFNode.mkInit false).run [EvK.gps false 34 (-118) 100]
      = (EKFNode.mkInit false).gpsCallback false 34 (-118) 100 := rfl
  have hrun2 : (EKFNode.mkInit false).run [EvK.gps false 34 (-118) 100, EvK.tick]
      = ((EKFNode.mkInit false).gpsCallback false 34 (-118) 100).pubCallback := rfl
  obtain ⟨hl, -⟩ :=
    EKFNode.pubCallback_log ((EKFNode.mkInit false).gpsCallback false 34 (-118) 100)
  rw [hf] at hl
  have hlog : ((EKFNode.mkInit false).gpsCallback false 34 (-118) 100).log = [] := rfl
  rw [hlog] at hl
  simp only [if_pos rfl, List.nil_append] at hl
  refine ⟨by rw [hrun1]; exact hh0, by rw [hrun2, hl]; rfl, ?_⟩
  rw [hrun2, hl]
  simp

/-- Claim C4 amended: the frame-initialization latches do not gate the
correction.  Every tick of the EKF node is predict followed by correct
whenever the freshness flag is set, independent of the latches; `gps_callback`
sets the freshness flag even before the frame is initialized, while leaving
the buffered projected position untouched as long as the heading latch is
unset, so such early corrections consume the initial (un-projected) `x, y`
buffers. -/
theorem C4_amended_corrections_ungated :
    (∀ s : EKFNode, (s.pubCallback).log
        = s.log ++ [Event.predictE] ++ (if s.gps_ready then [Event.correctE] else []))
    ∧ (∀ (s : EKFNode) (nan : Bool) (la lo al : ℝ),
        (s.gpsCallback nan la lo al).gps_ready = true)
    ∧ (∀ (s : EKFNode) (nan : Bool) (la lo al : ℝ), s.orig_heading_set = false →
        (s.gpsCallback nan la lo al).x = s.x ∧ (s.gpsCallback nan la lo al).y = s.y) := by
  refine ⟨fun s => (EKFNode.pubCallback_log s).1,
         fun s nan la lo al => (s.gpsCallbackK_spec nan la lo al).2.2.2.1,
         fun s nan la lo al h => (s.gpsCallbackK_spec nan la lo al).2.2.2.2.2.2.2.2 h⟩

/-- Witness for the amended claim C4, at the freshly constructed EKF node and
a concrete valid fix. -/
theorem C4_amended_witness :
    (EKFNode.mkInit false).orig_heading_set = false
    ∧ ((EKFNode.mkInit false).gpsCallback false 34 (-118) 100).x = (EKFNode.mkInit false).x
    ∧ ((EKFNode.mkInit false).gpsCallback false 34 (-118) 100).gps_ready = true := by
  exact ⟨rfl,
    (C4_amended_corrections_ungated.2.2 (EKFNode.mkInit false) false 34 (-118) 100 rfl).1,
    C4_amended_corrections_ungated.2.1 (EKFNode.mkInit false) false 34 (-118) 100⟩

/-- Claim C5: the two initialization latches transition from unset to set at
most once and never revert, in both nodes and regardless of the arrival order
of GPS and magnetometer samples; once `origin_set` holds no step calls
`set_graph` again or changes the stored origin, once `orig_heading_set` holds
no step calls `set_rotation` again or changes the stored rotation, and along
any run from construction each anchoring call happens at most once. -/
theorem C5_latches_once :
    (∀ (s : SENode) (e : Ev), s.origin_set = true →
        (s.step e).origin_set = true
        ∧ (s.step e).graph.origin = s.graph.origin
        ∧ (s.step e).graph.setGraphArgs = s.graph.setGraphArgs)
    ∧ (∀ (s : SENode) (e : Ev), s.orig_heading_set = true →
        (s.step e).orig_heading_set = true
        ∧ (s.step e).graph.rotation = s.graph.rotation
        ∧ (s.step e).graph.setRotationArgs = s.graph.setRotationArgs)
    ∧ (∀ (s : EKFNode) (e : EvK), s.origin_set = true →
        (s.step e).origin_set = true
        ∧ (s.step e).graph.origin = s.graph.origin
        ∧ (s.step e).graph.setGraphArgs = s.graph.setGraphArgs)
    ∧ (∀ (s : EKFNode) (e : EvK), s.orig_heading_set = true →
        (s.step e).orig_heading_set = true
        ∧ (s.step e).graph.rotation = s.graph.rotation
        ∧ (s.step e).graph.setRotationArgs = s.graph.setRotationArgs)
    ∧ (∀ (s : SENode) (t : List Ev), s.origin_set = true →
        (s.run t).graph.origin = s.graph.origin)
    ∧ (∀ (s : SENode) (t : List Ev), s.orig_heading_set = true →
        (s.run t).graph.rotation = s.graph.rotation)
    ∧ (∀ (s : EKFNode) (t : List EvK), s.origin_set = true →
        (s.run t).graph.origin = s.graph.origin)
    ∧ (∀ (s : EKFNode) (t : List EvK), s.orig_heading_set = true →
        (s.run t).graph.rotation = s.graph.rotation)
    ∧ (∀ (alg : String) (t : List Ev),
        ((SENode.mkInit alg).run t).graph.setGraphArgs.length ≤ 1
        ∧ ((SENode.mkInit alg).run t).graph.setRotationArgs.length ≤ 1)
    ∧ (∀ (velOnly : Bool) (t : List EvK),
        ((EKFNode.mkInit velOnly).run t).graph.setGraphArgs.length ≤ 1
        ∧ ((EKFNode.mkInit velOnly).run t).graph.setRotationArgs.length ≤ 1) :=
  ⟨SENode.step_origin_latch, SENode.step_heading_latch,
   EKFNode.stepK_origin_latch, EKFNode.stepK_heading_latch,
   fun s t h => (SENode.run_origin_latch s t h).2.1,
   fun s t h => (SENode.run_heading_latch s t h).2.1,
   fun s t h => (EKFNode.runK_origin_latch s t h).2.1,
   fun s t h => (EKFNode.runK_heading_latch s t h).2.1,
   SENode.run_anchor_calls, EKFNode.runK_anchor_calls⟩

/-- Witness for claim C5: a node whose origin latch was just set by a first
fix keeps the same stored origin across a further GPS sample and a tick. -/
theorem C5_witness :
    ((SENode.mkInit "ground_truth").gpsCallback false 34 (-118) 100).origin_set = true
    ∧ (((SENode.mkInit "ground_truth").gpsCallback false 34 (-118) 100).run
          [Ev.gps false 35 (-117) 50, Ev.tick]).graph.origin
        = ((SENode.mkInit "ground_truth").gpsCallback false 34 (-118) 100).graph.origin := by
  have h1 : ((SENode.mkInit "ground_truth").gpsCallback false 34 (-118) 100).origin_set
      = true := rfl
  exact ⟨h1, C5_latches_once.2.2.2.2.1
      ((SENode.mkInit "ground_truth").gpsCallback false 34 (-118) 100)
      [Ev.gps false 35 (-117) 50, Ev.tick] h1⟩

/-- Claim C7 counterexample: a tick of the three-mode node configured for the
particle filter, with no fresh observation pending, performs no particle
propagation at all (indeed no estimator event whatsoever), contradicting the
claim that such ticks perform propagation-only. -/
theorem C7_counterexample :
    (SENode.mkInit "particle_filter").gps_ready = false
    ∧ ((SENode.mkInit "particle_filter").run [Ev.tick]).log = []
    ∧ Event.pfPropagateE ∉ ((SENode.mkInit "particle_filter").run [Ev.tick]).log := by
  have hl : ((SENode.mkInit "particle_filter").run [Ev.tick]).log = [] :=
    (SENode.pubCallback_inert (SENode.mkInit "particle_filter")).1
  exact ⟨rfl, hl, by rw [hl]; simp⟩

/-- Claim C7 amended: the particle-filter path of the three-mode node is
never reached by a tick (the string-to-enum dispatch never matches), so no
propagation, reweighting, or resampling occurs on any tick; moreover `PFstep`
itself, wherever invoked, passes the buffered observation to the combined
`pf.update` unconditionally and neither consults nor clears the freshness
flag. -/
theorem C7_amended_pf_path :
    (∀ s : SENode, (s.pubCallback).log = s.log ∧ (s.pubCallback).state = s.state
        ∧ (s.pubCallback).gps_ready = s.gps_ready)
    ∧ (∀ (s : SENode) (u : ℝ × ℝ) (zv : Fin 3 → ℝ),
        (s.PFstep u zv).gps_ready = s.gps_ready
        ∧ (s.PFstep u zv).state = (PF.update s.pf u zv).estimate
        ∧ (s.PFstep u zv).log = s.log ++ (PF.update s.pf u zv).events) := by
  refine ⟨fun s => ?_, fun s u zv => ⟨rfl, rfl, rfl⟩⟩
  obtain ⟨h1, h2, h3, -⟩ := s.pubCallback_inert
  exact ⟨h1, h2, h3⟩

/-- Claim C8: after every magnetometer callback, in either node, the stored
heading `D` is the shared heading computation, and that computation always
lands in the canonical range `[0, 360)` degrees. -/
theorem C8_heading_canonical_range :
    (∀ magX magY : ℝ, 0 ≤ computeHeading magX magY ∧ computeHeading magX magY < 360)
    ∧ (∀ (s : SENode) (a b c : ℝ), (s.magCallback a b c).D = computeHeading a b)
    ∧ (∀ (s : EKFNode) (a b c : ℝ), (s.magCallback a b c).D = computeHeading a b) :=
  ⟨computeHeading_range,
   fun s a b c => (s.magCallback_spec a b c).1,
   fun s a b c => (s.magCallbackK_spec a b c).1⟩

/-- Claim C6 counterexample: the first magnetometer sample does mutate the
state vector from inside a sensor callback.  After a control input and two
ticks of the EKF node the predicted heading component is nonzero, and the
magnetometer callback then overwrites it with the initial heading, so the
callback changes the state. -/
theorem C6_counterexample :
    (((EKFNode.mkInit false).run [EvK.inputs 1 1, EvK.tick, EvK.tick]).magCallback 1 0 0).state
      ≠ ((EKFNode.mkInit false).run [EvK.inputs 1 1, EvK.tick, EvK.tick]).state := by
  intro hcontra
  have hth := congrArg StateVec.theta hcontra
  have hh : ((EKFNode.mkInit false).run
      [EvK.inputs 1 1, EvK.tick, EvK.tick]).orig_heading_set = false := rfl
  have hth0 : (((EKFNode.mkInit false).run
        [EvK.inputs 1 1, EvK.tick, EvK.tick]).magCallback 1 0 0).state.theta
      = ((EKFNode.mkInit false).run [EvK.inputs 1 1, EvK.tick, EvK.tick]).init_theta := by
    obtain ⟨-, -, -, -, -, hst, -⟩ :=
      ((EKFNode.mkInit false).run [EvK.inputs 1 1, EvK.tick, EvK.tick]).magCallbackK_spec 1 0 0
    rw [hst, if_neg (by simp [hh])]
  have hit : ((EKFNode.mkInit false).run
      [EvK.inputs 1 1, EvK.tick, EvK.tick]).init_theta = 0 := rfl
  have hv : ((EKFNode.mkInit false).run
      [EvK.inputs 1 1, EvK.tick, EvK.tick]).state.theta ≠ 0 := by
    show (((EKFNode.mkInit false).inputsCallback 1 1).pubCallback.pubCallback).state.theta ≠ 0
    norm_num [EKFNode.pubCallback, EKFNode.EKFstep, EKF.predict, predict_state,
      EKFNode.inputsCallback, EKFNode.mkInit, dynDefaults]
  rw [hth0, hit] at hth
  exact hv hth.symm

/-- Claim C6 amended: every inbound sensor callback of either node leaves the
state vector unchanged, with one exception: the first magnetometer sample
(heading latch still unset) overwrites the heading component with the
configured initial heading; all other state replacement happens in the tick
handler. -/
theorem C6_amended_callbacks_state :
    (∀ (s : EKFNode) (a b : ℝ), (s.inputsCallback a b).state = s.state)
    ∧ (∀ (s : EKFNode) (nan : Bool) (la lo al : ℝ),
        (s.gpsCallback nan la lo al).state = s.state)
    ∧ (∀ (s : EKFNode) (a b c : ℝ), (s.magCallback a b c).state
        = if s.orig_heading_set then s.state else { s.state with theta := s.init_theta })
    ∧ (∀ (s : SENode) (a b : ℝ), (s.inputsCallback a b).state = s.state)
    ∧ (∀ (s : SENode) (a b c d : ℝ), (s.groundTruthCallback a b c d).state = s.state)
    ∧ (∀ (s : SENode) (nan : Bool) (la lo al : ℝ),
        (s.gpsCallback nan la lo al).state = s.state)
    ∧ (∀ (s : SENode) (a b c : ℝ), (s.magCallback a b c).state
        = if s.orig_heading_set then s.state else { s.state with theta := s.init_theta }) :=
  ⟨fun _ _ _ => rfl,
   fun s nan la lo al => (s.gpsCallbackK_spec nan la lo al).2.2.2.2.1,
   fun s a b c => (s.magCallbackK_spec a b c).2.2.2.2.2.1,
   fun _ _ _ => rfl, fun _ _ _ _ _ => rfl,
   fun s nan la lo al => (s.gpsCallback_spec nan la lo al).2.2.2.2.1,
   fun s a b c => (s.magCallback_spec a b c).2.2.2.2.2.1⟩

/-- Claim C9: on the first magnetometer sample (heading latch unset, so along
any run the rotation is still unset), the stored frame rotation becomes the
measured heading in radians minus the configured initial heading, and the
heading component of the state is simultaneously reset to the configured
initial heading; subsequent samples change neither rotation nor state.  This
holds in both nodes. -/
theorem C9_first_mag_sets_rotation :
    (∀ (s : SENode) (a b c : ℝ), s.orig_heading_set = false → s.graph.rotation = none →
        (s.magCallback a b c).graph.rotation
            = some (deg2rad (computeHeading a b) - s.init_theta)
        ∧ (s.magCallback a b c).state.theta = s.init_theta
        ∧ (s.magCallback a b c).orig_heading_set = true)
    ∧ (∀ (s : SENode) (a b c : ℝ), s.orig_heading_set = true →
        (s.magCallback a b c).graph.rotation = s.graph.rotation
        ∧ (s.magCallback a b c).state = s.state)
    ∧ (∀ (alg : String) (t : List Ev),
        ((SENode.mkInit alg).run t).orig_heading_set = false →
        ((SENode.mkInit alg).run t).graph.rotation = none)
    ∧ (∀ (s : EKFNode) (a b c : ℝ), s.orig_heading_set = false → s.graph.rotation = none →
        (s.magCallback a b c).graph.rotation
            = some (deg2rad (computeHeading a b) - s.init_theta)
        ∧ (s.magCallback a b c).state.theta = s.init_theta
        ∧ (s.magCallback a b c).orig_heading_set = true)
    ∧ (∀ (velOnly : Bool) (t : List EvK),
        ((EKFNode.mkInit velOnly).run t).orig_heading_set = false →
        ((EKFNode.mkInit velOnly).run t).graph.rotation = none) := by
  refine ⟨fun s a b c h hr => ?_, fun s a b c h => ?_, fun alg t h => ?_,
         fun s a b c h hr => ?_, fun velOnly t h => ?_⟩
  · obtain ⟨-, hset, -, -, hg, hst, -⟩ := s.magCallback_spec a b c
    rw [hg, if_neg (by simp [h]), hst, if_neg (by simp [h])]
    refine ⟨?_, rfl, hset⟩
    simp [Graph.set_rotation, hr]
  · obtain ⟨-, -, -, -, hg, hst, -⟩ := s.magCallback_spec a b c
    rw [hg, if_pos h, hst, if_pos h]
    exact ⟨rfl, rfl⟩
  · exact ((SENode.run_frameInv _ t (SENode.mkInit_frameInv alg)).2.2.1 h).1
  · obtain ⟨-, hset, -, -, hg, hst, -⟩ := s.magCallbackK_spec a b c
    rw [hg, if_neg (by simp [h]), hst, if_neg (by simp [h])]
    refine ⟨?_, rfl, hset⟩
    simp [Graph.set_rotation, hr]
  · exact ((EKFNode.runK_frameInv _ t (EKFNode.mkInitK_frameInv velOnly)).2.2.1 h).1

/-- Witness for claim C9, matching the scenario of the spec: the first
magnetometer sample reads heading 90 degrees and the configured initial
heading is 0, so the stored rotation is pi halves and the state heading is
reset to 0. -/
theorem C9_witness :
    ((SENode.mkInit "ground_truth").magCallback 0 1 0).graph.rotation
        = some (Real.pi / 2)
    ∧ ((SENode.mkInit "ground_truth").magCallback 0 1 0).state.theta = 0 := by
  obtain ⟨h1, h2, -⟩ :=
    C9_first_mag_sets_rotation.1 (SENode.mkInit "ground_truth") 0 1 0 rfl rfl
  have hch : computeHeading 0 1 = 90 := by
    simp only [computeHeading]
    rw [if_pos (by norm_num), if_neg (by norm_num), wrapOver360_of_le (by norm_num),
        wrapUnder0_of_nonneg (by norm_num)]
  have hval : deg2rad (computeHeading 0 1) - (SENode.mkInit "ground_truth").init_theta
      = Real.pi / 2 := by
    rw [hch]
    show deg2rad 90 - 0 = Real.pi / 2
    unfold deg2rad
    ring
  rw [hval] at h1
  have hit : (SENode.mkInit "ground_truth").init_theta = 0 := rfl
  rw [hit] at h2
  exact ⟨h1, h2⟩

/-- Claim C10: each tick of the EKF node publishes exactly one message; with
`ekf_vel_only` set its position fields carry the raw buffered measurement
(which the tick leaves untouched), otherwise the post-step state estimate;
orientation and the velocity components `v cos theta`, `v sin theta` always
come from the post-step state. -/
theorem C10_vel_only_publish :
    ∀ s : EKFNode,
      (s.pubCallback).published = s.published ++
        [{ px := if s.ekf_vel_only then s.x else (s.pubCallback).state.x,
           py := if s.ekf_vel_only then s.y else (s.pubCallback).state.y,
           oz := (s.pubCallback).state.theta,
           vx := (s.pubCallback).state.v * Real.cos ((s.pubCallback).state.theta),
           vy := (s.pubCallback).state.v * Real.sin ((s.pubCallback).state.theta) }]
      ∧ (s.pubCallback).x = s.x ∧ (s.pubCallback).y = s.y := by
  intro s
  obtain ⟨hx, hy, hpub, hvel, -⟩ :=
    s.EKFstep_preserves (s.throttle, s.steering / 2.2) ![s.x, s.y, deg2rad s.D]
  have hpc : s.pubCallback = { s.EKFstep (s.throttle, s.steering / 2.2)
        ![s.x, s.y, deg2rad s.D] with
      published := (s.EKFstep (s.throttle, s.steering / 2.2)
          ![s.x, s.y, deg2rad s.D]).published ++
        [{ px := if (s.EKFstep (s.throttle, s.steering / 2.2)
              ![s.x, s.y, deg2rad s.D]).ekf_vel_only
             then (s.EKFstep (s.throttle, s.steering / 2.2) ![s.x, s.y, deg2rad s.D]).x
             else (s.EKFstep (s.throttle, s.steering / 2.2) ![s.x, s.y, deg2rad s.D]).state.x,
           py := if (s.EKFstep (s.throttle, s.steering / 2.2)
              ![s.x, s.y, deg2rad s.D]).ekf_vel_only
             then (s.EKFstep (s.throttle, s.steering / 2.2) ![s.x, s.y, deg2rad s.D]).y
             else (s.EKFstep (s.throttle, s.steering / 2.2) ![s.x, s.y, deg2rad s.D]).state.y,
           oz := (s.EKFstep (s.throttle, s.steering / 2.2) ![s.x, s.y, deg2rad s.D]).state.theta,
           vx := (s.EKFstep (s.throttle, s.steering / 2.2)
               ![s.x, s.y, deg2rad s.D]).state.v * Real.cos ((s.EKFstep (s.throttle,
               s.steering / 2.2) ![s.x, s.y, deg2rad s.D]).state.theta),
           vy := (s.EKFstep (s.throttle, s.steering / 2.2)
               ![s.x, s.y, deg2rad s.D]).state.v * Real.sin ((s.EKFstep (s.throttle,
               s.steering / 2.2) ![s.x, s.y, deg2rad s.D]).state.theta) }] } := rfl
  rw [hpc]
  simp only [hpub, hvel, hx, hy]
  exact ⟨trivial, trivial, trivial⟩

end MiniAV
